import Mathlib

/-! NativeEngine: the export annotation (Core.h) and the bootstrap (EntryPoint.h)

The two headers of `src/NativeCore` are embedded as Lean functions.

* A header is a function on the state of the preprocessor: the table of
  definitions in force, the diagnostics raised so far and the declarations
  that reached the translation unit. Each `#ifdef` becomes an `if` on the
  table, each `#define` an update of the table, `#error` a diagnostic.
* `main` is a computation over the state of the process. It calls the
  collaborators it is linked against (the factory, `Run`, the destructor),
  which are parameters, and every call it makes is recorded in a trace.
-/

set_option linter.unusedVariables false

namespace NativeEngine

/-! ## Preprocessor state -/

/-- Table of the definitions in force: name and replacement text, latest first. -/
abbrev Defines := List (String × String)

/-- Declarations that the headers can contribute to a translation unit. -/
inductive Decl
  /-- The declaration of the factory `NativeEngine::CreateApplication`. -/
  | factoryDeclaration
  /-- The definition of `int main(int argc, char** argv)`. -/
  | mainDefinition
  deriving DecidableEq, Repr

/-- State of the preprocessor while it reads a translation unit. -/
structure TU where
  /-- Definitions in force. -/
  defines : Defines
  /-- Texts of the `#error` directives reached, oldest first. -/
  diagnostics : List String
  /-- Declarations emitted, oldest first. -/
  decls : List Decl
  deriving DecidableEq, Repr

/-- Start of a translation unit with the definitions given on the command line. -/
def TU.start (d : Defines) : TU := ⟨d, [], []⟩

/-- Replacement text of a name, `none` when the name is not defined. -/
def TU.resolve (s : TU) (name : String) : Option String := s.defines.lookup name

/-- Test of `#ifdef name`. -/
def TU.isDefined (s : TU) (name : String) : Bool := (s.resolve name).isSome

/-- Effect of `#define name body`. -/
def TU.define (s : TU) (name body : String) : TU :=
  ⟨(name, body) :: s.defines, s.diagnostics, s.decls⟩

/-- Effect of `#error text`. -/
def TU.error (s : TU) (text : String) : TU :=
  ⟨s.defines, s.diagnostics ++ [text], s.decls⟩

/-- Effect of a declaration that is not skipped by a conditional. -/
def TU.declare (s : TU) (d : Decl) : TU :=
  ⟨s.defines, s.diagnostics, s.decls ++ [d]⟩

/-- Compilation succeeds when no `#error` was reached. -/
def TU.succeeds (s : TU) : Bool := s.diagnostics.isEmpty

/-! ## Core.h -/

/-- Core.h, lines 3 to 11: the nested conditionals that define `NE_API`. -/
def Core_h (s : TU) : TU :=
  if s.isDefined "NE_PLATFORM_WINDOWS" then
    if s.isDefined "NE_BUILD_DLL" then
      s.define "NE_API" "__declspec(dllexport)"
    else
      s.define "NE_API" "__declspec(dllimport)"
  else
    s.error "Native Engine only support windows."

/-! ## EntryPoint.h -/

/-- EntryPoint.h, lines 4 to 15: both declarations sit inside one conditional. -/
def EntryPoint_h (s : TU) : TU :=
  if s.isDefined "NE_PLATFORM_WINDOWS" then
    (s.declare Decl.factoryDeclaration).declare Decl.mainDefinition
  else
    s

/-! ## The process that `main` runs in -/

/-- Value of an `Application*`; `nullptr` is `0`. -/
abbrev Ptr := Nat

/-- The null pointer. -/
def nullptr : Ptr := 0

/-- Calls that `main` makes, in the order it makes them. -/
inductive Event
  /-- Call of `printf` with this format string. -/
  | printf (text : String)
  /-- Call of the factory `NativeEngine::CreateApplication()`. -/
  | CreateApplication
  /-- Call of `app->Run()`. -/
  | Run (app : Ptr)
  /-- Evaluation of `delete app`. -/
  | delete (app : Ptr)
  deriving DecidableEq, Repr

/-- The factory call is the one event that is neither banner, run nor destroy. -/
def Event.isFactoryCall : Event → Bool
  | Event.CreateApplication => true
  | _ => false

/-- Collaborators that the bootstrap is linked against. They act on a state `σ`
of their own; the factory and `Run` either return or fail with an `ε`
(an exception thrown, the process terminated). As in the source, the factory
takes no argument and `Run` takes only the object: neither is handed `argc`
or `argv`. -/
structure Collaborators (σ ε : Type) where
  /-- `NativeEngine::CreateApplication()`: the pointer returned and the new state. -/
  CreateApplication : σ → Except ε (Ptr × σ)
  /-- `Application::Run()` on the object pointed to. -/
  Run : Ptr → σ → Except ε σ
  /-- Destructor of `Application`, run by `delete`. -/
  destroy : Ptr → σ → σ

/-- State of the process as far as `main` can change it. -/
structure Process (σ : Type) where
  /-- State of the collaborators. -/
  world : σ
  /-- Text written to the standard output by `main`. -/
  stdout : String
  /-- Calls made by `main` so far, oldest first. -/
  trace : List Event

/-- Process at the moment `main` is entered. -/
def Process.start {σ : Type} (w : σ) : Process σ := ⟨w, "", []⟩

/-- Computation over the process: the state it leaves, and the value it returns
or the failure that left it. -/
def Exec (σ ε α : Type) : Type := Process σ → Process σ × Except ε α

/-- Sequencing: a failure ends the computation, nothing after it is run. -/
def Exec.bind {σ ε α β : Type} (m : Exec σ ε α) (f : α → Exec σ ε β) : Exec σ ε β :=
  fun s =>
    match m s with
    | (s1, Except.ok a) => f a s1
    | (s1, Except.error e) => (s1, Except.error e)

/-- Return without effect. -/
def Exec.pure {σ ε α : Type} (a : α) : Exec σ ε α := fun s => (s, Except.ok a)

instance {σ ε : Type} : Monad (Exec σ ε) where
  pure := Exec.pure
  bind := Exec.bind

/-- Record a call in the trace. -/
def Process.log {σ : Type} (s : Process σ) (e : Event) : Process σ :=
  ⟨s.world, s.stdout, s.trace ++ [e]⟩

/-- The call `printf(text)` for a format string without conversions: the text
goes to the standard output and the number of characters is returned. -/
def printf {σ ε : Type} (text : String) : Exec σ ε Int :=
  fun s => (⟨s.world, s.stdout ++ text, s.trace ++ [Event.printf text]⟩,
            Except.ok (text.length : Int))

/-- The call `NativeEngine::CreateApplication()`. -/
def CreateApplication {σ ε : Type} (c : Collaborators σ ε) : Exec σ ε Ptr :=
  fun s =>
    let s1 := s.log Event.CreateApplication
    match c.CreateApplication s1.world with
    | Except.ok (app, w) => (⟨w, s1.stdout, s1.trace⟩, Except.ok app)
    | Except.error e => (s1, Except.error e)

/-- The call `app->Run()`. -/
def Run {σ ε : Type} (c : Collaborators σ ε) (app : Ptr) : Exec σ ε Unit :=
  fun s =>
    let s1 := s.log (Event.Run app)
    match c.Run app s1.world with
    | Except.ok w => (⟨w, s1.stdout, s1.trace⟩, Except.ok ())
    | Except.error e => (s1, Except.error e)

/-- The statement `delete app`: the destructor is run on the object pointed to,
and on a null pointer the statement does nothing. -/
def delete {σ ε : Type} (c : Collaborators σ ε) (app : Ptr) : Exec σ ε Unit :=
  fun s =>
    let s1 := s.log (Event.delete app)
    if app = nullptr then
      (s1, Except.ok ())
    else
      (⟨c.destroy app s1.world, s1.stdout, s1.trace⟩, Except.ok ())

/-- EntryPoint.h, lines 8 to 14: the body of `main`, statement by statement.
The value is what a `return` statement sets; the body has none, so control
flows off its end and the value is `none`. -/
def main {σ ε : Type} (c : Collaborators σ ε) (argc : Int) (argv : List String) :
    Exec σ ε (Option Int) := do
  let _ ← printf "This is a Native Engine Application"
  let app ← CreateApplication c
  Run c app
  delete c app
  pure none

/-- Exit status of the process: the value returned from `main`, and `0` when
control flows off the end of `main`. -/
def exitStatus : Option Int → Int
  | some v => v
  | none => 0

/-- Outcome of a whole run of the program from the state `w` of the collaborators. -/
def runMain {σ ε : Type} (c : Collaborators σ ε) (argc : Int) (argv : List String) (w : σ) :
    Process σ × Except ε (Option Int) :=
  main c argc argv (Process.start w)

/-! ## Sample collaborators -/

/-- A factory that hands out the object at address `7`; the state counts the
collaborator calls. -/
def sampleApp : Collaborators Nat String where
  CreateApplication := fun w => Except.ok (7, w + 1)
  Run := fun _ w => Except.ok (w + 1)
  destroy := fun _ w => w + 1

/-- A factory that fails. -/
def failingFactory : Collaborators Nat String where
  CreateApplication := fun _ => Except.error "no application"
  Run := fun _ w => Except.ok (w + 1)
  destroy := fun _ w => w + 1

/-- An application whose `Run` fails. -/
def failingRun : Collaborators Nat String where
  CreateApplication := fun w => Except.ok (7, w + 1)
  Run := fun _ _ => Except.error "run failed"
  destroy := fun _ w => w + 1

/-- A factory that returns the null pointer; the state counts the collaborator
calls. -/
def nullFactory : Collaborators Nat String where
  CreateApplication := fun w => Except.ok (nullptr, w + 1)
  Run := fun _ w => Except.ok (w + 1)
  destroy := fun _ w => w + 1

/-- Command line of a build for the supported platform that builds the library. -/
def windowsDll : Defines := [("NE_PLATFORM_WINDOWS", "1"), ("NE_BUILD_DLL", "1")]

/-- Command line of a build for the supported platform that consumes the library. -/
def windowsClient : Defines := [("NE_PLATFORM_WINDOWS", "1")]

/-- Command line of a build for another platform that builds the library. -/
def linuxDll : Defines := [("NE_PLATFORM_LINUX", "1"), ("NE_BUILD_DLL", "1")]

/-! ## The three ways a run of `main` can go -/

/-- Factory and `Run` both return: the four calls are made and `main` finishes. -/
theorem runMain_returns {σ ε : Type} (c : Collaborators σ ε) (argc : Int) (argv : List String)
    (w w1 w2 : σ) (p : Ptr)
    (hf : c.CreateApplication w = Except.ok (p, w1)) (hr : c.Run p w1 = Except.ok w2) :
    runMain c argc argv w =
      (⟨if p = nullptr then w2 else c.destroy p w2, "This is a Native Engine Application",
        [Event.printf "This is a Native Engine Application", Event.CreateApplication,
         Event.Run p, Event.delete p]⟩, Except.ok none) := by
  by_cases hp : p = nullptr
  · subst hp
    simp [runMain, main, bind, Exec.bind, printf, CreateApplication, Run, delete, Process.log,
      Process.start, hf, hr, pure, Exec.pure]
  · simp [runMain, main, bind, Exec.bind, printf, CreateApplication, Run, delete, Process.log,
      Process.start, hf, hr, pure, Exec.pure, hp]

/-- The factory fails: `main` stops right after the factory call. -/
theorem runMain_factory_fails {σ ε : Type} (c : Collaborators σ ε) (argc : Int)
    (argv : List String) (w : σ) (e : ε)
    (hf : c.CreateApplication w = Except.error e) :
    runMain c argc argv w =
      (⟨w, "This is a Native Engine Application",
        [Event.printf "This is a Native Engine Application", Event.CreateApplication]⟩,
       Except.error e) := by
  simp [runMain, main, bind, Exec.bind, printf, CreateApplication, Process.log,
    Process.start, hf]

/-- The factory returns and `Run` fails: `main` stops right after the call of `Run`. -/
theorem runMain_run_fails {σ ε : Type} (c : Collaborators σ ε) (argc : Int)
    (argv : List String) (w w1 : σ) (p : Ptr) (e : ε)
    (hf : c.CreateApplication w = Except.ok (p, w1)) (hr : c.Run p w1 = Except.error e) :
    runMain c argc argv w =
      (⟨w1, "This is a Native Engine Application",
        [Event.printf "This is a Native Engine Application", Event.CreateApplication,
         Event.Run p]⟩, Except.error e) := by
  simp [runMain, main, bind, Exec.bind, printf, CreateApplication, Run, Process.log,
    Process.start, hf, hr]

/-- Every run of `main` is one of the three above. -/
theorem runMain_cases {σ ε : Type} (c : Collaborators σ ε) (w : σ) :
    (∃ e, c.CreateApplication w = Except.error e) ∨
    (∃ p w1 e, c.CreateApplication w = Except.ok (p, w1) ∧ c.Run p w1 = Except.error e) ∨
    (∃ p w1 w2, c.CreateApplication w = Except.ok (p, w1) ∧ c.Run p w1 = Except.ok w2) := by
  cases hf : c.CreateApplication w with
  | error e => exact Or.inl ⟨e, rfl⟩
  | ok r =>
    obtain ⟨p, w1⟩ := r
    cases hr : c.Run p w1 with
    | error e => exact Or.inr (Or.inl ⟨p, w1, e, rfl, hr⟩)
    | ok w2 => exact Or.inr (Or.inr ⟨p, w1, w2, rfl, hr⟩)

/-! ## The bootstrap: order of the calls -/

/-- C1, as stated, fails: with a factory that returns an instance whose `Run`
returns, the trace of `main` is not create, banner, run, destroy. -/
theorem C1_create_before_banner_fails :
    sampleApp.CreateApplication 0 = Except.ok (7, 1) ∧
    sampleApp.Run 7 1 = Except.ok 2 ∧
    (runMain sampleApp 1 ["app.exe"] 0).1.trace ≠
      [Event.CreateApplication, Event.printf "This is a Native Engine Application",
       Event.Run 7, Event.delete 7] := by
  refine ⟨rfl, rfl, ?_⟩
  rw [runMain_returns sampleApp 1 ["app.exe"] 0 1 2 7 rfl rfl]
  simp

/-- C1, amended: for every factory that returns an instance whose `Run` returns,
the trace of `main` is exactly banner, create, run, destroy, in this order: the
banner is printed before the factory is called. The four steps are carried out:
the state left is that of the destructor, applied to the instance on the state
that `Run` left. -/
theorem C1_trace_banner_create_run_destroy {σ ε : Type} (c : Collaborators σ ε) (argc : Int)
    (argv : List String) (w w1 w2 : σ) (p : Ptr)
    (hf : c.CreateApplication w = Except.ok (p, w1)) (hr : c.Run p w1 = Except.ok w2) :
    (runMain c argc argv w).1.trace =
      [Event.printf "This is a Native Engine Application", Event.CreateApplication,
       Event.Run p, Event.delete p] ∧
    (runMain c argc argv w).1.stdout = "This is a Native Engine Application" ∧
    (p ≠ nullptr → (runMain c argc argv w).1.world = c.destroy p w2) := by
  rw [runMain_returns c argc argv w w1 w2 p hf hr]
  refine ⟨rfl, rfl, ?_⟩
  intro hp
  simp [hp]

/-- Witness of the amended C1 on the sample application. -/
theorem C1_trace_banner_create_run_destroy_witness :
    (runMain sampleApp 1 ["app.exe"] 0).1.trace =
      [Event.printf "This is a Native Engine Application", Event.CreateApplication,
       Event.Run 7, Event.delete 7] ∧
    (runMain sampleApp 1 ["app.exe"] 0).1.stdout = "This is a Native Engine Application" ∧
    (runMain sampleApp 1 ["app.exe"] 0).1.world = 3 :=
  ⟨(C1_trace_banner_create_run_destroy sampleApp 1 ["app.exe"] 0 1 2 7 rfl rfl).1,
   (C1_trace_banner_create_run_destroy sampleApp 1 ["app.exe"] 0 1 2 7 rfl rfl).2.1,
   (C1_trace_banner_create_run_destroy sampleApp 1 ["app.exe"] 0 1 2 7 rfl rfl).2.2
     (by decide)⟩

/-- C2: for every factory that returns a valid instance whose `Run` returns, the
trace of `main` without the factory call is exactly banner, run, destroy, each
once and in this order; the text printed is the banner, once; `Run` is applied
once, to the instance on the state the factory left, and the destructor once,
to the instance on the state `Run` left: the final state is `destroy p w2`. -/
theorem C2_banner_run_destroy_once {σ ε : Type} (c : Collaborators σ ε) (argc : Int)
    (argv : List String) (w w1 w2 : σ) (p : Ptr) (hp : p ≠ nullptr)
    (hf : c.CreateApplication w = Except.ok (p, w1)) (hr : c.Run p w1 = Except.ok w2) :
    (runMain c argc argv w).1.trace.filter (fun e => !e.isFactoryCall) =
      [Event.printf "This is a Native Engine Application", Event.Run p, Event.delete p] ∧
    (runMain c argc argv w).1.stdout = "This is a Native Engine Application" ∧
    (runMain c argc argv w).1.world = c.destroy p w2 ∧
    (runMain c argc argv w).2 = Except.ok none := by
  rw [runMain_returns c argc argv w w1 w2 p hf hr]
  simp [List.filter, Event.isFactoryCall, hp]

/-- Witness of C2 on the sample application: the state counts three collaborator
calls, the factory, `Run` and the destructor. -/
theorem C2_banner_run_destroy_once_witness :
    (runMain sampleApp 1 ["app.exe"] 0).1.trace.filter (fun e => !e.isFactoryCall) =
      [Event.printf "This is a Native Engine Application", Event.Run 7, Event.delete 7] ∧
    (runMain sampleApp 1 ["app.exe"] 0).1.stdout = "This is a Native Engine Application" ∧
    (runMain sampleApp 1 ["app.exe"] 0).1.world = 3 ∧
    (runMain sampleApp 1 ["app.exe"] 0).2 = Except.ok none :=
  C2_banner_run_destroy_once sampleApp 1 ["app.exe"] 0 1 2 7 (by decide) rfl rfl

/-! ## Core.h: the export annotation -/

/-- C3: whenever `NE_PLATFORM_WINDOWS` is defined, preprocessing Core.h succeeds
and `NE_API` resolves to the export annotation if `NE_BUILD_DLL` is defined and
to the import annotation if it is not. -/
theorem C3_NE_API_resolution (d : Defines)
    (h : (TU.start d).isDefined "NE_PLATFORM_WINDOWS" = true) :
    (Core_h (TU.start d)).succeeds = true ∧
    ((TU.start d).isDefined "NE_BUILD_DLL" = true →
      (Core_h (TU.start d)).resolve "NE_API" = some "__declspec(dllexport)") ∧
    ((TU.start d).isDefined "NE_BUILD_DLL" = false →
      (Core_h (TU.start d)).resolve "NE_API" = some "__declspec(dllimport)") := by
  refine ⟨?_, ?_, ?_⟩
  · unfold Core_h
    rw [if_pos h]
    split <;> simp [TU.succeeds, TU.define, TU.start]
  · intro hb
    simp [Core_h, h, hb, TU.resolve, TU.define, List.lookup]
  · intro hb
    simp [Core_h, h, hb, TU.resolve, TU.define, List.lookup]

/-- Witness of C3 on the two builds for the supported platform. -/
theorem C3_NE_API_resolution_witness :
    ((Core_h (TU.start windowsDll)).succeeds = true ∧
      (Core_h (TU.start windowsDll)).resolve "NE_API" = some "__declspec(dllexport)") ∧
    ((Core_h (TU.start windowsClient)).succeeds = true ∧
      (Core_h (TU.start windowsClient)).resolve "NE_API" = some "__declspec(dllimport)") :=
  ⟨⟨(C3_NE_API_resolution windowsDll (by decide)).1,
    (C3_NE_API_resolution windowsDll (by decide)).2.1 (by decide)⟩,
   ⟨(C3_NE_API_resolution windowsClient (by decide)).1,
    (C3_NE_API_resolution windowsClient (by decide)).2.2 (by decide)⟩⟩

/-- C4: compilation of Core.h fails if and only if `NE_PLATFORM_WINDOWS` is not
defined. When it is not, whatever else is defined, the one diagnostic is the
fixed text, no definition is made and `NE_API` is left undefined; when it is
defined there is no diagnostic. -/
theorem C4_fails_iff_platform_undefined (d : Defines) :
    ((Core_h (TU.start d)).succeeds = false ↔
      (TU.start d).isDefined "NE_PLATFORM_WINDOWS" = false) ∧
    ((TU.start d).isDefined "NE_PLATFORM_WINDOWS" = false →
      (Core_h (TU.start d)).diagnostics = ["Native Engine only support windows."] ∧
      (Core_h (TU.start d)).defines = d ∧
      ((TU.start d).isDefined "NE_API" = false →
        (Core_h (TU.start d)).isDefined "NE_API" = false)) ∧
    ((TU.start d).isDefined "NE_PLATFORM_WINDOWS" = true →
      (Core_h (TU.start d)).diagnostics = []) := by
  have hfail : (TU.start d).isDefined "NE_PLATFORM_WINDOWS" = false →
      Core_h (TU.start d) = ⟨d, ["Native Engine only support windows."], []⟩ := by
    intro h
    unfold Core_h
    rw [if_neg (by simp [h])]
    rfl
  have hok : (TU.start d).isDefined "NE_PLATFORM_WINDOWS" = true →
      (Core_h (TU.start d)).diagnostics = [] := by
    intro h
    unfold Core_h
    rw [if_pos h]
    split <;> simp [TU.define, TU.start]
  refine ⟨⟨?_, ?_⟩, ?_, hok⟩
  · intro hs
    cases hp : (TU.start d).isDefined "NE_PLATFORM_WINDOWS" with
    | false => rfl
    | true =>
      have := hok hp
      simp [TU.succeeds, this] at hs
  · intro hp
    rw [hfail hp]
    rfl
  · intro hp
    rw [hfail hp]
    refine ⟨rfl, rfl, ?_⟩
    intro ha
    simpa [TU.isDefined, TU.resolve, TU.start] using ha

/-- Witness of C4 on a build for another platform, with and without the
library flag, and on a build for the supported platform. -/
theorem C4_fails_iff_platform_undefined_witness :
    (Core_h (TU.start linuxDll)).succeeds = false ∧
    (Core_h (TU.start linuxDll)).diagnostics = ["Native Engine only support windows."] ∧
    (Core_h (TU.start linuxDll)).isDefined "NE_API" = false ∧
    (Core_h (TU.start [])).diagnostics = ["Native Engine only support windows."] ∧
    (Core_h (TU.start windowsDll)).diagnostics = [] :=
  ⟨(C4_fails_iff_platform_undefined linuxDll).1.2 (by decide),
   ((C4_fails_iff_platform_undefined linuxDll).2.1 (by decide)).1,
   ((C4_fails_iff_platform_undefined linuxDll).2.1 (by decide)).2.2 (by decide),
   ((C4_fails_iff_platform_undefined []).2.1 (by decide)).1,
   (C4_fails_iff_platform_undefined windowsDll).2.2 (by decide)⟩

/-! ## The bootstrap: the factory, failures, ownership, arguments -/

/-- C5: for every factory and every argument vector, `main` calls the factory
exactly once, on the state it was started in. Whatever pointer the factory
returns, the null pointer included, `main` checks nothing: its next call is
`Run`, applied to that pointer on the state the factory left, and what `Run`
does there decides how `main` ends. -/
theorem C5_factory_called_once {σ ε : Type} (c : Collaborators σ ε) (argc : Int)
    (argv : List String) (w : σ) :
    (runMain c argc argv w).1.trace.count Event.CreateApplication = 1 ∧
    (∀ e, c.CreateApplication w = Except.error e →
      (runMain c argc argv w).2 = Except.error e) ∧
    ∀ p w1, c.CreateApplication w = Except.ok (p, w1) →
      (runMain c argc argv w).1.trace.take 3 =
        [Event.printf "This is a Native Engine Application", Event.CreateApplication,
         Event.Run p] ∧
      (∀ e, c.Run p w1 = Except.error e →
        (runMain c argc argv w).2 = Except.error e) ∧
      (∀ w2, c.Run p w1 = Except.ok w2 →
        (runMain c argc argv w).2 = Except.ok none ∧
        (runMain c argc argv w).1.world = if p = nullptr then w2 else c.destroy p w2) := by
  rcases runMain_cases c w with ⟨e, hf⟩ | ⟨p, w1, e, hf, hr⟩ | ⟨p, w1, w2, hf, hr⟩
  · rw [runMain_factory_fails c argc argv w e hf]
    refine ⟨by simp [List.count_cons], ?_, ?_⟩
    · intro e2 he
      rw [hf] at he
      cases he
      rfl
    · intro q v hq
      rw [hf] at hq
      cases hq
  · rw [runMain_run_fails c argc argv w w1 p e hf hr]
    refine ⟨by simp [List.count_cons], ?_, ?_⟩
    · intro e2 he
      rw [hf] at he
      cases he
    · intro q v hq
      rw [hf] at hq
      cases hq
      refine ⟨rfl, ?_, ?_⟩
      · intro e2 he
        rw [hr] at he
        cases he
        rfl
      · intro v2 hv
        rw [hr] at hv
        cases hv
  · rw [runMain_returns c argc argv w w1 w2 p hf hr]
    refine ⟨by simp [List.count_cons], ?_, ?_⟩
    · intro e2 he
      rw [hf] at he
      cases he
    · intro q v hq
      rw [hf] at hq
      cases hq
      refine ⟨rfl, ?_, ?_⟩
      · intro e2 he
        rw [hr] at he
        cases he
      · intro v2 hv
        rw [hr] at hv
        cases hv
        exact ⟨rfl, rfl⟩

/-- Witness of C5 on a factory that returns the null pointer: `Run` is applied
to it all the same, so the state counts the factory and `Run`. -/
theorem C5_factory_called_once_witness :
    (runMain nullFactory 1 ["app.exe"] 0).1.trace.count Event.CreateApplication = 1 ∧
    (runMain nullFactory 1 ["app.exe"] 0).1.trace.take 3 =
      [Event.printf "This is a Native Engine Application", Event.CreateApplication,
       Event.Run nullptr] ∧
    (runMain nullFactory 1 ["app.exe"] 0).2 = Except.ok none ∧
    (runMain nullFactory 1 ["app.exe"] 0).1.world = 2 :=
  ⟨(C5_factory_called_once nullFactory 1 ["app.exe"] 0).1,
   ((C5_factory_called_once nullFactory 1 ["app.exe"] 0).2.2 nullptr 1 rfl).1,
   (((C5_factory_called_once nullFactory 1 ["app.exe"] 0).2.2 nullptr 1 rfl).2.2 2 rfl).1,
   (((C5_factory_called_once nullFactory 1 ["app.exe"] 0).2.2 nullptr 1 rfl).2.2 2 rfl).2⟩

/-- C6: whenever `Run` returns, `main` evaluates `delete` on the instance, which
runs the destructor on the state `Run` left (and runs nothing when the pointer
is null); the `delete` is its last call and happens once, no `return`
statement sets a status, and the process exits with status 0. -/
theorem C6_destroy_then_exit_zero {σ ε : Type} (c : Collaborators σ ε) (argc : Int)
    (argv : List String) (w w1 w2 : σ) (p : Ptr)
    (hf : c.CreateApplication w = Except.ok (p, w1)) (hr : c.Run p w1 = Except.ok w2) :
    (runMain c argc argv w).1.trace.getLast? = some (Event.delete p) ∧
    (runMain c argc argv w).1.trace.count (Event.delete p) = 1 ∧
    (p ≠ nullptr → (runMain c argc argv w).1.world = c.destroy p w2) ∧
    (p = nullptr → (runMain c argc argv w).1.world = w2) ∧
    (runMain c argc argv w).2 = Except.ok none ∧
    (runMain c argc argv w).2.map exitStatus = Except.ok 0 := by
  rw [runMain_returns c argc argv w w1 w2 p hf hr]
  refine ⟨by simp, by simp [List.count_cons], ?_, ?_, rfl, rfl⟩
  · intro hp
    simp [hp]
  · intro hp
    simp [hp]

/-- Witness of C6 on the sample application: the destructor is the third
collaborator call. -/
theorem C6_destroy_then_exit_zero_witness :
    (runMain sampleApp 1 ["app.exe"] 0).1.trace.getLast? = some (Event.delete 7) ∧
    (runMain sampleApp 1 ["app.exe"] 0).1.trace.count (Event.delete 7) = 1 ∧
    (runMain sampleApp 1 ["app.exe"] 0).1.world = sampleApp.destroy 7 2 ∧
    (runMain sampleApp 1 ["app.exe"] 0).1.world = 3 ∧
    (runMain sampleApp 1 ["app.exe"] 0).2 = Except.ok none ∧
    (runMain sampleApp 1 ["app.exe"] 0).2.map exitStatus = Except.ok 0 :=
  ⟨(C6_destroy_then_exit_zero sampleApp 1 ["app.exe"] 0 1 2 7 rfl rfl).1,
   (C6_destroy_then_exit_zero sampleApp 1 ["app.exe"] 0 1 2 7 rfl rfl).2.1,
   (C6_destroy_then_exit_zero sampleApp 1 ["app.exe"] 0 1 2 7 rfl rfl).2.2.1 (by decide),
   (C6_destroy_then_exit_zero sampleApp 1 ["app.exe"] 0 1 2 7 rfl rfl).2.2.1 (by decide),
   (C6_destroy_then_exit_zero sampleApp 1 ["app.exe"] 0 1 2 7 rfl rfl).2.2.2.2.1,
   (C6_destroy_then_exit_zero sampleApp 1 ["app.exe"] 0 1 2 7 rfl rfl).2.2.2.2.2⟩

/-- C7: `main` has no error recovery. If the factory fails, `main` ends with that
same failure, the factory call is its last call, and neither `Run` nor `delete`
is reached. If `Run` fails, `main` ends with that same failure, the call of `Run`
is its last call, and `delete` is not reached. -/
theorem C7_no_error_recovery {σ ε : Type} (c : Collaborators σ ε) (argc : Int)
    (argv : List String) (w : σ) :
    (∀ e, c.CreateApplication w = Except.error e →
      (runMain c argc argv w).2 = Except.error e ∧
      (runMain c argc argv w).1.trace.getLast? = some Event.CreateApplication ∧
      (∀ q, Event.Run q ∉ (runMain c argc argv w).1.trace ∧
            Event.delete q ∉ (runMain c argc argv w).1.trace) ∧
      (runMain c argc argv w).1.world = w) ∧
    (∀ p w1 e, c.CreateApplication w = Except.ok (p, w1) → c.Run p w1 = Except.error e →
      (runMain c argc argv w).2 = Except.error e ∧
      (runMain c argc argv w).1.trace.getLast? = some (Event.Run p) ∧
      (∀ q, Event.delete q ∉ (runMain c argc argv w).1.trace) ∧
      (runMain c argc argv w).1.world = w1) := by
  constructor
  · intro e hf
    rw [runMain_factory_fails c argc argv w e hf]
    simp
  · intro p w1 e hf hr
    rw [runMain_run_fails c argc argv w w1 p e hf hr]
    simp

/-- Witness of C7 on a failing factory and on a failing `Run`. -/
theorem C7_no_error_recovery_witness :
    ((runMain failingFactory 1 ["app.exe"] 0).2 = Except.error "no application" ∧
     (runMain failingFactory 1 ["app.exe"] 0).1.trace.getLast? =
       some Event.CreateApplication) ∧
    ((runMain failingRun 1 ["app.exe"] 0).2 = Except.error "run failed" ∧
     (runMain failingRun 1 ["app.exe"] 0).1.trace.getLast? = some (Event.Run 7)) :=
  ⟨⟨((C7_no_error_recovery failingFactory 1 ["app.exe"] 0).1 "no application" rfl).1,
    ((C7_no_error_recovery failingFactory 1 ["app.exe"] 0).1 "no application" rfl).2.1⟩,
   ⟨((C7_no_error_recovery failingRun 1 ["app.exe"] 0).2 7 1 "run failed" rfl rfl).1,
    ((C7_no_error_recovery failingRun 1 ["app.exe"] 0).2 7 1 "run failed" rfl rfl).2.1⟩⟩

/-- A trace that ends in `delete p` after three other calls has nothing after
a `delete`. -/
theorem nothing_after_delete (a b : Event) (p q : Ptr) (pre post : List Event)
    (ha : ∀ r, a ≠ Event.delete r) (hb : ∀ r, b ≠ Event.delete r)
    (h : [a, b, Event.Run p, Event.delete p] = pre ++ Event.delete q :: post) :
    post = [] := by
  rcases pre with _ | ⟨x, _ | ⟨y, _ | ⟨z, _ | ⟨u, pre⟩⟩⟩⟩
  · simp at h
    exact absurd h.1 (ha q)
  · simp at h
    exact absurd h.2.1 (hb q)
  · simp at h
  · simp at h
    exact h.2.2.2.2
  · simp at h

/-- C8: for every factory, any object on which `main` calls `Run` and any object
`main` deletes is the pointer returned by its one factory call, and no call
of `main` follows the `delete`. -/
theorem C8_single_owner {σ ε : Type} (c : Collaborators σ ε) (argc : Int)
    (argv : List String) (w : σ) (q : Ptr) :
    (Event.Run q ∈ (runMain c argc argv w).1.trace →
      ∃ w1, c.CreateApplication w = Except.ok (q, w1)) ∧
    (Event.delete q ∈ (runMain c argc argv w).1.trace →
      ∃ w1, c.CreateApplication w = Except.ok (q, w1)) ∧
    (∀ pre post, (runMain c argc argv w).1.trace = pre ++ Event.delete q :: post →
      post = []) := by
  rcases runMain_cases c w with ⟨e, hf⟩ | ⟨p, w1, e, hf, hr⟩ | ⟨p, w1, w2, hf, hr⟩
  · rw [runMain_factory_fails c argc argv w e hf]
    refine ⟨by simp, by simp, ?_⟩
    intro pre post h
    have hm : Event.delete q ∈
        [Event.printf "This is a Native Engine Application", Event.CreateApplication] := by
      have h2 : [Event.printf "This is a Native Engine Application",
          Event.CreateApplication] = pre ++ Event.delete q :: post := h
      rw [h2]
      simp
    simp at hm
  · rw [runMain_run_fails c argc argv w w1 p e hf hr]
    refine ⟨?_, by simp, ?_⟩
    · intro hq
      simp at hq
      exact ⟨w1, hq ▸ hf⟩
    · intro pre post h
      have hm : Event.delete q ∈
          [Event.printf "This is a Native Engine Application", Event.CreateApplication,
           Event.Run p] := by
        have h2 : [Event.printf "This is a Native Engine Application",
            Event.CreateApplication, Event.Run p] = pre ++ Event.delete q :: post := h
        rw [h2]
        simp
      simp at hm
  · rw [runMain_returns c argc argv w w1 w2 p hf hr]
    refine ⟨?_, ?_, ?_⟩
    · intro hq
      simp at hq
      exact ⟨w1, hq ▸ hf⟩
    · intro hq
      simp at hq
      exact ⟨w1, hq ▸ hf⟩
    · intro pre post h
      exact nothing_after_delete _ _ p q pre post (by simp) (by simp) h

/-- Witness of C8 on the sample application: the object run and the object
deleted are the one the factory returned. -/
theorem C8_single_owner_witness :
    Event.Run 7 ∈ (runMain sampleApp 1 ["app.exe"] 0).1.trace ∧
    Event.delete 7 ∈ (runMain sampleApp 1 ["app.exe"] 0).1.trace ∧
    (∃ w1, sampleApp.CreateApplication 0 = Except.ok (7, w1)) :=
  have hrun : Event.Run 7 ∈ (runMain sampleApp 1 ["app.exe"] 0).1.trace := by
    rw [runMain_returns sampleApp 1 ["app.exe"] 0 1 2 7 rfl rfl]
    simp
  have hdel : Event.delete 7 ∈ (runMain sampleApp 1 ["app.exe"] 0).1.trace := by
    rw [runMain_returns sampleApp 1 ["app.exe"] 0 1 2 7 rfl rfl]
    simp
  ⟨hrun, hdel, (C8_single_owner sampleApp 1 ["app.exe"] 0 7).2.1 hdel⟩

/-- C9: `main` ignores its arguments: for every two argument vectors and the same
factory, the whole outcome is the same, so the calls made, the text printed and
the exit status are the same. -/
theorem C9_arguments_ignored {σ ε : Type} (c : Collaborators σ ε) (argc argc2 : Int)
    (argv argv2 : List String) (w : σ) :
    runMain c argc argv w = runMain c argc2 argv2 w ∧
    (runMain c argc argv w).1.trace = (runMain c argc2 argv2 w).1.trace ∧
    (runMain c argc argv w).1.stdout = (runMain c argc2 argv2 w).1.stdout ∧
    (runMain c argc argv w).2.map exitStatus = (runMain c argc2 argv2 w).2.map exitStatus :=
  ⟨rfl, rfl, rfl, rfl⟩

/-! ## EntryPoint.h: what reaches the translation unit -/

/-- C10: when `NE_PLATFORM_WINDOWS` is not defined, EntryPoint.h contributes
nothing, neither `main` nor the factory declaration nor a diagnostic, while
Core.h on the same definitions raises the diagnostic; when it is defined,
EntryPoint.h defines `main` exactly once and raises no diagnostic; and its
result is the same for any two command lines that agree on that one flag,
whatever they say about `NE_BUILD_DLL`. -/
theorem C10_entry_point_conditional (d d2 : Defines) :
    ((TU.start d).isDefined "NE_PLATFORM_WINDOWS" = false →
      (EntryPoint_h (TU.start d)).decls = [] ∧
      (EntryPoint_h (TU.start d)).diagnostics = [] ∧
      EntryPoint_h (TU.start d) = TU.start d ∧
      (Core_h (TU.start d)).diagnostics = ["Native Engine only support windows."]) ∧
    ((TU.start d).isDefined "NE_PLATFORM_WINDOWS" = true →
      (EntryPoint_h (TU.start d)).decls = [Decl.factoryDeclaration, Decl.mainDefinition] ∧
      (EntryPoint_h (TU.start d)).decls.count Decl.mainDefinition = 1 ∧
      (EntryPoint_h (TU.start d)).diagnostics = []) ∧
    ((TU.start d).isDefined "NE_PLATFORM_WINDOWS" =
        (TU.start d2).isDefined "NE_PLATFORM_WINDOWS" →
      (EntryPoint_h (TU.start d)).decls = (EntryPoint_h (TU.start d2)).decls ∧
      (EntryPoint_h (TU.start d)).diagnostics = (EntryPoint_h (TU.start d2)).diagnostics) := by
  have hoff : ∀ x : Defines, (TU.start x).isDefined "NE_PLATFORM_WINDOWS" = false →
      EntryPoint_h (TU.start x) = TU.start x := by
    intro x h
    unfold EntryPoint_h
    rw [if_neg (by simp [h])]
  have hon : ∀ x : Defines, (TU.start x).isDefined "NE_PLATFORM_WINDOWS" = true →
      EntryPoint_h (TU.start x) =
        ⟨x, [], [Decl.factoryDeclaration, Decl.mainDefinition]⟩ := by
    intro x h
    unfold EntryPoint_h
    rw [if_pos h]
    rfl
  refine ⟨?_, ?_, ?_⟩
  · intro h
    refine ⟨by rw [hoff d h]; rfl, by rw [hoff d h]; rfl, hoff d h, ?_⟩
    unfold Core_h
    rw [if_neg (by simp [h])]
    rfl
  · intro h
    rw [hon d h]
    refine ⟨rfl, by simp [List.count_cons], rfl⟩
  · intro h
    cases h1 : (TU.start d).isDefined "NE_PLATFORM_WINDOWS" with
    | false =>
      rw [h1] at h
      rw [hoff d h1, hoff d2 h.symm]
      exact ⟨rfl, rfl⟩
    | true =>
      rw [h1] at h
      rw [hon d h1, hon d2 h.symm]
      exact ⟨rfl, rfl⟩

/-- Witness of C10: a build for another platform gets nothing from EntryPoint.h,
and the two builds for the supported platform get the same single `main`. -/
theorem C10_entry_point_conditional_witness :
    ((EntryPoint_h (TU.start linuxDll)).decls = [] ∧
     (EntryPoint_h (TU.start linuxDll)).diagnostics = [] ∧
     (Core_h (TU.start linuxDll)).diagnostics = ["Native Engine only support windows."]) ∧
    (EntryPoint_h (TU.start windowsDll)).decls.count Decl.mainDefinition = 1 ∧
    (EntryPoint_h (TU.start windowsDll)).decls = (EntryPoint_h (TU.start windowsClient)).decls :=
  ⟨⟨((C10_entry_point_conditional linuxDll linuxDll).1 (by decide)).1,
    ((C10_entry_point_conditional linuxDll linuxDll).1 (by decide)).2.1,
    ((C10_entry_point_conditional linuxDll linuxDll).1 (by decide)).2.2.2⟩,
   ((C10_entry_point_conditional windowsDll windowsClient).2.1 (by decide)).2.1,
   ((C10_entry_point_conditional windowsDll windowsClient).2.2 (by decide)).1⟩

end NativeEngine
